import Mathlib

/-!
Verification development for the k8s-acl-operator repository.

The Go sources are shallowly embedded: pure functions become Lean functions,
Go maps (map[string]string and the keyed subject map of mergeSubjects) become
association lists with in-place update (one deterministic linearization of
the unordered Go map, adequate for all set-level statements), and
interactions with external collaborators (the Kubernetes API store, the
regexp engine, the text/template parser) are modelled by oracle parameters
giving each call's result, together with an explicit effect trace recording
the store operations a code path performs.
-/

namespace KAclOp

/-! ## Association-list model of Go maps

Go map insertion m[k] = v replaces the value of an existing key and otherwise
adds the key; lookup returns the value of the key if present.  mapSet keeps
the first-insertion order of keys, which is one fixed linearization of the
unordered Go map. -/

def mapSet {α : Type} : List (String × α) → String → α → List (String × α)
  | [], k, v => [(k, v)]
  | (k₀, v₀) :: rest, k, v =>
    if k₀ = k then (k, v) :: rest else (k₀, v₀) :: mapSet rest k v

def mapGet {α : Type} : List (String × α) → String → Option α
  | [], _ => none
  | (k₀, v₀) :: rest, k => if k₀ = k then some v₀ else mapGet rest k

def mapKeys {α : Type} (m : List (String × α)) : List String :=
  m.map (fun p => p.1)

abbrev LMap := List (String × String)

/-! ## Data model of RBAC payloads (pkg/apis/rbac/v1/types.go and k8s rbacv1) -/

structure PolicyRule where
  apiGroups : List String
  resources : List String
  resourceNames : List String
  nonResourceURLs : List String
  verbs : List String
  deriving DecidableEq

structure Subject where
  kind : String
  apiGroup : String
  name : String
  namespace_ : String
  deriving DecidableEq

structure RoleRef where
  apiGroup : String
  kind : String
  name : String
  deriving DecidableEq

/-! ## mergeRules and mergeSubjects (pkg/rbac manager, mergeRules and
mergeSubjects) -/

/-- mergeRules: simple merge, a copy of the existing rules followed by an
append of the new rules; no deduplication is performed. -/
def mergeRules (existing new : List PolicyRule) : List PolicyRule :=
  existing ++ new

/-- subjectKey is the composite dedup key built by mergeSubjects via
fmt.Sprintf with slash separators: kind/apiGroup/name/namespace. -/
def subjectKey (s : Subject) : String :=
  s.kind ++ "/" ++ s.apiGroup ++ "/" ++ s.name ++ "/" ++ s.namespace_

def insertSubject (m : List (String × Subject)) (s : Subject) : List (String × Subject) :=
  mapSet m (subjectKey s) s

/-- mergeSubjects: fills a map keyed by subjectKey with the existing subjects
and then the new subjects (later entries winning on duplicate keys), and
returns the map's values.  The Go map iterates in unspecified order; this
embedding fixes first-insertion order as its linearization. -/
def mergeSubjects (existing new : List Subject) : List Subject :=
  let subjectMap := existing.foldl insertSubject []
  let subjectMap := new.foldl insertSubject subjectMap
  subjectMap.map (fun p => p.2)

/-- SubjWF: well-formedness of subject maps built by insertSubject; keys are
nodup and each entry's key is the subjectKey of its value. -/
def SubjWF (m : List (String × Subject)) : Prop :=
  (mapKeys m).Nodup ∧ ∀ p ∈ m, p.1 = subjectKey p.2

/-- lastVal k l is the last element of l whose subjectKey is k, matching the
value that a later-wins keyed insertion fold stores for key k. -/
def lastVal (k : String) : List Subject → Option Subject
  | [] => none
  | s :: rest =>
    match lastVal k rest with
    | some t => some t
    | none => if subjectKey s = k then some s else none

/-! ## Operator-managed labels (pkg/rbac manager: label constants and
mergeLabels) -/

def OwnerLabel : String := "rbac.operator.io/owned-by"

def ConfigLabel : String := "rbac.operator.io/config"

def NamespaceLabel : String := "rbac.operator.io/namespace"

/-! ## API types (pkg/apis/rbac/v1/types.go).  Fields that are nil-able Go
maps or pointers become Option; the NamingConfig field names Prefix, Suffix
and Separator are abbreviated pfx, sfx and sep. -/

structure NamespaceSelector where
  nameRegex : Option String
  annotations : Option LMap
  labels : Option LMap
  includeNamespaces : List String
  excludeNamespaces : List String

structure RoleTemplate where
  name : String
  rules : List PolicyRule
  labels : Option LMap
  annotations : Option LMap

structure ClusterRoleTemplate where
  name : String
  rules : List PolicyRule
  labels : Option LMap
  annotations : Option LMap

structure RoleBindingTemplate where
  name : String
  roleRef : RoleRef
  subjects : List Subject
  labels : Option LMap
  annotations : Option LMap

structure ClusterRoleBindingTemplate where
  name : String
  roleRef : RoleRef
  subjects : List Subject
  labels : Option LMap
  annotations : Option LMap

structure RBACTemplates where
  roles : List RoleTemplate
  clusterRoles : List ClusterRoleTemplate
  roleBindings : List RoleBindingTemplate
  clusterRoleBindings : List ClusterRoleBindingTemplate

structure NamingConfig where
  pfx : String
  sfx : String
  sep : String

structure CleanupConfig where
  deleteOrphanedClusterResources : Option Bool
  gracePeriodSeconds : Option Int

/-- MergeStrategy is a Go string constant; the unknown constructor covers any
string other than the three declared constants, which the upsert switch
rejects in its default branch. -/
inductive MergeStrategy where
  | merge
  | replace
  | ignore
  | unknown (s : String)
  deriving DecidableEq

structure NamespaceRBACConfigConfig where
  naming : Option NamingConfig
  mergeStrategy : Option MergeStrategy
  templateVariables : Option LMap
  cleanup : Option CleanupConfig

structure NamespaceRBACConfigSpec where
  namespaceSelector : NamespaceSelector
  rbacTemplates : RBACTemplates
  config : Option NamespaceRBACConfigConfig

inductive ConditionStatus where
  | ctrue
  | cfalse
  | cunknown
  deriving DecidableEq

/-- Condition models metav1.Condition restricted to the fields the controller
logic reads and writes; the LastTransitionTime bookkeeping (wall-clock time)
is outside the embedding. -/
structure Condition where
  type_ : String
  status : ConditionStatus
  reason : String
  message : String
  deriving DecidableEq

structure NamespaceRBACConfigStatus where
  conditions : List Condition
  appliedNamespaces : List String
  observedGeneration : Int

structure NamespaceRBACConfig where
  name : String
  generation : Int
  spec : NamespaceRBACConfigSpec
  status : NamespaceRBACConfigStatus

/-- NamespaceObj models corev1.Namespace restricted to the metadata the
operator reads; nil label/annotation maps are none. -/
structure NamespaceObj where
  name : String
  labels : Option LMap
  annotations : Option LMap

/-! ## NamespaceMatches (pkg/utils helpers).  The Go regexp engine is
abstracted as the rmatch oracle returning the (matched, err) pair of
regexp.MatchString. -/

/-- requireAll models the Go loop that requires every key of the required map
to exist in the target map with an exactly equal value. -/
def requireAll (required target : LMap) : Bool :=
  required.all (fun p => mapGet target p.1 == some p.2)

/-- NamespaceMatches returns the (bool, error) pair of the Go function:
exclusion first, then inclusion, then the name regex (an rmatch error is
returned as (false, err)), then required annotations, then required labels. -/
def NamespaceMatches (rmatch : String → String → Bool × Option String)
    (ns : NamespaceObj) (selector : NamespaceSelector) : Bool × Option String :=
  if ns.name ∈ selector.excludeNamespaces then (false, none)
  else if 0 < selector.includeNamespaces.length ∧ ns.name ∉ selector.includeNamespaces then
    (false, none)
  else
    let labelCheck : Bool × Option String :=
      match selector.labels with
      | some required =>
        match ns.labels with
        | none => (false, none)
        | some nsLabels =>
          if requireAll required nsLabels then (true, none) else (false, none)
      | none => (true, none)
    let annotationCheck : Bool × Option String :=
      match selector.annotations with
      | some required =>
        match ns.annotations with
        | none => (false, none)
        | some nsAnnotations =>
          if requireAll required nsAnnotations then labelCheck else (false, none)
      | none => labelCheck
    match selector.nameRegex with
    | some r =>
      if r = "" then annotationCheck
      else
        match rmatch r ns.name with
        | (_, some e) => (false, some e)
        | (false, none) => (false, none)
        | (true, none) => annotationCheck
    | none => annotationCheck

/-! ## Generated permission objects and mergeLabels (pkg/rbac manager) -/

structure RoleObj where
  name : String
  namespace_ : String
  labels : LMap
  annotations : LMap
  rules : List PolicyRule
  resourceVersion : String
  deriving DecidableEq

structure ClusterRoleObj where
  name : String
  labels : LMap
  annotations : LMap
  rules : List PolicyRule
  resourceVersion : String
  deriving DecidableEq

structure RoleBindingObj where
  name : String
  namespace_ : String
  labels : LMap
  annotations : LMap
  roleRef : RoleRef
  subjects : List Subject
  resourceVersion : String
  deriving DecidableEq

structure ClusterRoleBindingObj where
  name : String
  labels : LMap
  annotations : LMap
  roleRef : RoleRef
  subjects : List Subject
  resourceVersion : String
  deriving DecidableEq

/-- mergeLabels merges template labels with operator-managed labels: template
labels are copied into a fresh map first, then the owner label, the config
label and (when targetNamespace is non-empty) the namespace label are
force-set, so that they win any key collision. -/
def mergeLabels (templateLabels : LMap) (config : NamespaceRBACConfig)
    (targetNamespace : String) : LMap :=
  let labels : LMap := []
  let labels := templateLabels.foldl (fun acc p => mapSet acc p.1 p.2) labels
  let labels := mapSet labels OwnerLabel "namespace-rbac-operator"
  let labels := mapSet labels ConfigLabel config.name
  if targetNamespace ≠ "" then mapSet labels NamespaceLabel targetNamespace else labels

/-- roleObjectFor is the object-construction slice of applyRole: the Role
composite literal built after the name, labels and annotations have been
template-processed; applyRole passes ns.Name as the target namespace of
mergeLabels. -/
def roleObjectFor (name : String) (labels annotations : LMap) (rules : List PolicyRule)
    (config : NamespaceRBACConfig) (ns : NamespaceObj) : RoleObj :=
  { name := name
    namespace_ := ns.name
    labels := mergeLabels labels config ns.name
    annotations := annotations
    rules := rules
    resourceVersion := "" }

/-- clusterRoleObjectFor is the object-construction slice of applyClusterRole:
the ClusterRole composite literal built after template processing; note that
applyClusterRole also passes ns.Name (the name of the namespace that
triggered the apply) as the target namespace of mergeLabels. -/
def clusterRoleObjectFor (name : String) (labels annotations : LMap)
    (rules : List PolicyRule) (config : NamespaceRBACConfig) (ns : NamespaceObj) :
    ClusterRoleObj :=
  { name := name
    labels := mergeLabels labels config ns.name
    annotations := annotations
    rules := rules
    resourceVersion := "" }

/-! ## Create-or-update (upsert) protocol (pkg/rbac manager).  Store calls are
oracles: get i is the result of the fetch on attempt i, update i the result
of the update on attempt i, create the result of the single possible create.
The second component of each upsert's result is the trace of store
operations performed. -/

inductive GetRes (α : Type) where
  | found (obj : α)
  | notFound
  | failed (conflict : Bool)

inductive WriteRes where
  | ok
  | failed (conflict : Bool)

inductive Effect where
  | eget
  | ecreate
  | eupdate
  deriving DecidableEq

inductive UpsertResult (α : Type) where
  | created
  | ignored
  | updated (obj : α)
  | storeErr (conflict : Bool)
  | retriesExhausted
  | unknownStrategy (s : String)

/-- effectiveMergeStrategy resolves the declaration config override, with
default merge, exactly as each createOrUpdate function does. -/
def effectiveMergeStrategy (config : NamespaceRBACConfig) : MergeStrategy :=
  match config.spec.config with
  | some c =>
    match c.mergeStrategy with
    | some s => s
    | none => MergeStrategy.merge
  | none => MergeStrategy.merge

/-- createOrUpdateRoleLoop is the body of the retry-3-times loop of
createOrUpdateRole; fuel counts the remaining iterations (3 at entry), i the
attempt index, and the role accumulates the in-place mutations of the Go
code (merged rules and resource version).  Running out of fuel is the
terminal failed-after-retries error. -/
def createOrUpdateRoleLoop (get : Nat → GetRes RoleObj) (create : WriteRes)
    (update : Nat → WriteRes) (config : NamespaceRBACConfig) :
    Nat → Nat → RoleObj → UpsertResult RoleObj × List Effect
  | 0, _, _ => (UpsertResult.retriesExhausted, [])
  | fuel + 1, i, role =>
    match get i with
    | GetRes.notFound =>
      match create with
      | WriteRes.ok => (UpsertResult.created, [Effect.eget, Effect.ecreate])
      | WriteRes.failed c => (UpsertResult.storeErr c, [Effect.eget, Effect.ecreate])
    | GetRes.failed c => (UpsertResult.storeErr c, [Effect.eget])
    | GetRes.found existing =>
      match effectiveMergeStrategy config with
      | MergeStrategy.ignore => (UpsertResult.ignored, [Effect.eget])
      | MergeStrategy.unknown s => (UpsertResult.unknownStrategy s, [Effect.eget])
      | MergeStrategy.replace =>
        let role := { role with resourceVersion := existing.resourceVersion }
        match update i with
        | WriteRes.ok => (UpsertResult.updated role, [Effect.eget, Effect.eupdate])
        | WriteRes.failed false =>
          (UpsertResult.storeErr false, [Effect.eget, Effect.eupdate])
        | WriteRes.failed true =>
          let next := createOrUpdateRoleLoop get create update config fuel (i + 1) role
          (next.1, Effect.eget :: Effect.eupdate :: next.2)
      | MergeStrategy.merge =>
        let role := { role with
          rules := mergeRules existing.rules role.rules
          resourceVersion := existing.resourceVersion }
        match update i with
        | WriteRes.ok => (UpsertResult.updated role, [Effect.eget, Effect.eupdate])
        | WriteRes.failed false =>
          (UpsertResult.storeErr false, [Effect.eget, Effect.eupdate])
        | WriteRes.failed true =>
          let next := createOrUpdateRoleLoop get create update config fuel (i + 1) role
          (next.1, Effect.eget :: Effect.eupdate :: next.2)

def createOrUpdateRole (get : Nat → GetRes RoleObj) (create : WriteRes)
    (update : Nat → WriteRes) (config : NamespaceRBACConfig) (role : RoleObj) :
    UpsertResult RoleObj × List Effect :=
  createOrUpdateRoleLoop get create update config 3 0 role

/-- createOrUpdateClusterRole is straight-line: one fetch, then create or one
strategy-directed update whose result (conflict or not) is returned as is. -/
def createOrUpdateClusterRole (get : GetRes ClusterRoleObj) (create : WriteRes)
    (update : WriteRes) (config : NamespaceRBACConfig) (clusterRole : ClusterRoleObj) :
    UpsertResult ClusterRoleObj × List Effect :=
  match get with
  | GetRes.notFound =>
    match create with
    | WriteRes.ok => (UpsertResult.created, [Effect.eget, Effect.ecreate])
    | WriteRes.failed c => (UpsertResult.storeErr c, [Effect.eget, Effect.ecreate])
  | GetRes.failed c => (UpsertResult.storeErr c, [Effect.eget])
  | GetRes.found existing =>
    match effectiveMergeStrategy config with
    | MergeStrategy.ignore => (UpsertResult.ignored, [Effect.eget])
    | MergeStrategy.unknown s => (UpsertResult.unknownStrategy s, [Effect.eget])
    | MergeStrategy.replace =>
      let clusterRole := { clusterRole with resourceVersion := existing.resourceVersion }
      match update with
      | WriteRes.ok => (UpsertResult.updated clusterRole, [Effect.eget, Effect.eupdate])
      | WriteRes.failed c => (UpsertResult.storeErr c, [Effect.eget, Effect.eupdate])
    | MergeStrategy.merge =>
      let clusterRole := { clusterRole with
        rules := mergeRules existing.rules clusterRole.rules
        resourceVersion := existing.resourceVersion }
      match update with
      | WriteRes.ok => (UpsertResult.updated clusterRole, [Effect.eget, Effect.eupdate])
      | WriteRes.failed c => (UpsertResult.storeErr c, [Effect.eget, Effect.eupdate])

/-- createOrUpdateRoleBindingLoop mirrors createOrUpdateRoleLoop with the
subject-merge payload. -/
def createOrUpdateRoleBindingLoop (get : Nat → GetRes RoleBindingObj) (create : WriteRes)
    (update : Nat → WriteRes) (config : NamespaceRBACConfig) :
    Nat → Nat → RoleBindingObj → UpsertResult RoleBindingObj × List Effect
  | 0, _, _ => (UpsertResult.retriesExhausted, [])
  | fuel + 1, i, roleBinding =>
    match get i with
    | GetRes.notFound =>
      match create with
      | WriteRes.ok => (UpsertResult.created, [Effect.eget, Effect.ecreate])
      | WriteRes.failed c => (UpsertResult.storeErr c, [Effect.eget, Effect.ecreate])
    | GetRes.failed c => (UpsertResult.storeErr c, [Effect.eget])
    | GetRes.found existing =>
      match effectiveMergeStrategy config with
      | MergeStrategy.ignore => (UpsertResult.ignored, [Effect.eget])
      | MergeStrategy.unknown s => (UpsertResult.unknownStrategy s, [Effect.eget])
      | MergeStrategy.replace =>
        let roleBinding := { roleBinding with resourceVersion := existing.resourceVersion }
        match update i with
        | WriteRes.ok => (UpsertResult.updated roleBinding, [Effect.eget, Effect.eupdate])
        | WriteRes.failed false =>
          (UpsertResult.storeErr false, [Effect.eget, Effect.eupdate])
        | WriteRes.failed true =>
          let next := createOrUpdateRoleBindingLoop get create update config fuel (i + 1)
            roleBinding
          (next.1, Effect.eget :: Effect.eupdate :: next.2)
      | MergeStrategy.merge =>
        let roleBinding := { roleBinding with
          subjects := mergeSubjects existing.subjects roleBinding.subjects
          resourceVersion := existing.resourceVersion }
        match update i with
        | WriteRes.ok => (UpsertResult.updated roleBinding, [Effect.eget, Effect.eupdate])
        | WriteRes.failed false =>
          (UpsertResult.storeErr false, [Effect.eget, Effect.eupdate])
        | WriteRes.failed true =>
          let next := createOrUpdateRoleBindingLoop get create update config fuel (i + 1)
            roleBinding
          (next.1, Effect.eget :: Effect.eupdate :: next.2)

def createOrUpdateRoleBinding (get : Nat → GetRes RoleBindingObj) (create : WriteRes)
    (update : Nat → WriteRes) (config : NamespaceRBACConfig)
    (roleBinding : RoleBindingObj) : UpsertResult RoleBindingObj × List Effect :=
  createOrUpdateRoleBindingLoop get create update config 3 0 roleBinding

def createOrUpdateClusterRoleBinding (get : GetRes ClusterRoleBindingObj)
    (create : WriteRes) (update : WriteRes) (config : NamespaceRBACConfig)
    (clusterRoleBinding : ClusterRoleBindingObj) :
    UpsertResult ClusterRoleBindingObj × List Effect :=
  match get with
  | GetRes.notFound =>
    match create with
    | WriteRes.ok => (UpsertResult.created, [Effect.eget, Effect.ecreate])
    | WriteRes.failed c => (UpsertResult.storeErr c, [Effect.eget, Effect.ecreate])
  | GetRes.failed c => (UpsertResult.storeErr c, [Effect.eget])
  | GetRes.found existing =>
    match effectiveMergeStrategy config with
    | MergeStrategy.ignore => (UpsertResult.ignored, [Effect.eget])
    | MergeStrategy.unknown s => (UpsertResult.unknownStrategy s, [Effect.eget])
    | MergeStrategy.replace =>
      let clusterRoleBinding :=
        { clusterRoleBinding with resourceVersion := existing.resourceVersion }
      match update with
      | WriteRes.ok => (UpsertResult.updated clusterRoleBinding, [Effect.eget, Effect.eupdate])
      | WriteRes.failed c => (UpsertResult.storeErr c, [Effect.eget, Effect.eupdate])
    | MergeStrategy.merge =>
      let clusterRoleBinding := { clusterRoleBinding with
        subjects := mergeSubjects existing.subjects clusterRoleBinding.subjects
        resourceVersion := existing.resourceVersion }
      match update with
      | WriteRes.ok => (UpsertResult.updated clusterRoleBinding, [Effect.eget, Effect.eupdate])
      | WriteRes.failed c => (UpsertResult.storeErr c, [Effect.eget, Effect.eupdate])

/-! ## Template engine (pkg/template).  Go text/template parsing is external:
ProcessTemplate and ValidateTemplate take the parse outcome as a parameter
(error for a syntax error, otherwise the parsed node list).  Execution under
Option missingkey=error is embedded by evalField: struct fields outside the
context type and missing map keys are execution errors; no value is ever
silently substituted by an empty string. -/

inductive TemplateNode where
  | text (s : String)
  | field (path : List String)

structure NamespaceContext where
  name : String
  labels : LMap
  annotations : LMap

structure CRDContext where
  name : String
  namespace_ : String

structure NamingContext where
  pfx : String
  sfx : String
  sep : String

structure ConfigContext where
  naming : NamingContext

structure TemplateContext where
  namespace_ : NamespaceContext
  crd : CRDContext
  config : ConfigContext
  customVars : LMap

/-- evalField resolves a dotted field path against the context in strict
mode: known struct fields resolve, map accesses fail on a missing key
(missingkey=error), and any other path is a cannot-evaluate-field error. -/
def evalField (ctx : TemplateContext) : List String → Except String String
  | ["Namespace", "Name"] => Except.ok ctx.namespace_.name
  | ["Namespace", "Labels", k] =>
    match mapGet ctx.namespace_.labels k with
    | some v => Except.ok v
    | none => Except.error ("map has no entry for key " ++ k)
  | ["Namespace", "Annotations", k] =>
    match mapGet ctx.namespace_.annotations k with
    | some v => Except.ok v
    | none => Except.error ("map has no entry for key " ++ k)
  | ["CRD", "Name"] => Except.ok ctx.crd.name
  | ["CRD", "Namespace"] => Except.ok ctx.crd.namespace_
  | ["Config", "Naming", "Prefix"] => Except.ok ctx.config.naming.pfx
  | ["Config", "Naming", "Suffix"] => Except.ok ctx.config.naming.sfx
  | ["Config", "Naming", "Separator"] => Except.ok ctx.config.naming.sep
  | ["CustomVars", k] =>
    match mapGet ctx.customVars k with
    | some v => Except.ok v
    | none => Except.error ("map has no entry for key " ++ k)
  | path => Except.error ("cannot evaluate field " ++ String.intercalate "." path)

/-- execTemplate executes a parsed template against the context,
concatenating literal text and resolved fields and stopping at the first
evaluation error. -/
def execTemplate (ctx : TemplateContext) : List TemplateNode → Except String String
  | [] => Except.ok ""
  | TemplateNode.text s :: rest =>
    match execTemplate ctx rest with
    | Except.ok out => Except.ok (s ++ out)
    | Except.error e => Except.error e
  | TemplateNode.field path :: rest =>
    match evalField ctx path with
    | Except.error e => Except.error e
    | Except.ok v =>
      match execTemplate ctx rest with
      | Except.ok out => Except.ok (v ++ out)
      | Except.error e => Except.error e

/-- nodeFails decides whether a node references a field undefined on the
context (the nodes whose execution errors in strict mode). -/
def nodeFails (ctx : TemplateContext) : TemplateNode → Bool
  | TemplateNode.text _ => false
  | TemplateNode.field path =>
    match evalField ctx path with
    | Except.error _ => true
    | Except.ok _ => false

/-- ProcessTemplate parses (with missingkey=error) and then executes; a parse
error or an execution error is returned wrapped, never an empty
substitution. -/
def ProcessTemplate (parsed : Except String (List TemplateNode))
    (ctx : TemplateContext) : Except String String :=
  match parsed with
  | Except.error e => Except.error ("failed to parse template: " ++ e)
  | Except.ok nodes =>
    match execTemplate ctx nodes with
    | Except.error e => Except.error ("failed to execute template: " ++ e)
    | Except.ok out => Except.ok out

/-- ValidateTemplate only parses the template and never executes it, so only
a syntax error is reported; field existence is not checked. -/
def ValidateTemplate (parsed : Except String (List TemplateNode)) : Option String :=
  match parsed with
  | Except.error e => some e
  | Except.ok _ => none

/-! ## NamespaceRBACConfig controller
(pkg/controller/namespacerbacconfig).  The slice modelled is the main
reconcile path after the finalizer is in place: set Progressing, validate,
reconcile RBAC over all namespaces, set the terminal conditions and persist
the status.  Store interactions are oracles; effects record RBAC
applications and status persistence. -/

def ConditionTypeReady : String := "Ready"

def ConditionTypeProgressing : String := "Progressing"

def ConditionTypeDegraded : String := "Degraded"

def ReasonReconcileSuccess : String := "ReconcileSuccess"

def ReasonReconcileError : String := "ReconcileError"

def ReasonValidationError : String := "ValidationError"

/-- setCondition replaces the existing condition of the same type in place,
or appends a new one (LastTransitionTime bookkeeping omitted). -/
def setCondition : List Condition → Condition → List Condition
  | [], c => [c]
  | existing :: rest, c =>
    if existing.type_ = c.type_ then c :: rest
    else existing :: setCondition rest c

def getCondition : List Condition → String → Option Condition
  | [], _ => none
  | c :: rest, t => if c.type_ = t then some c else getCondition rest t

/-- validateTemplatesNonEmpty is the template-presence half of
validateConfig: all four template lists empty is a validation error. -/
def validateTemplatesNonEmpty (config : NamespaceRBACConfig) : Option String :=
  if config.spec.rbacTemplates.roles.length = 0 ∧
      config.spec.rbacTemplates.clusterRoles.length = 0 ∧
      config.spec.rbacTemplates.roleBindings.length = 0 ∧
      config.spec.rbacTemplates.clusterRoleBindings.length = 0 then
    some "at least one RBAC template must be specified"
  else none

/-- validateConfig: the selector regex (when present) must compile (the
regexp compiler is the compileOk oracle), then at least one template of any
kind must be declared. -/
def validateConfig (compileOk : String → Bool) (config : NamespaceRBACConfig) :
    Option String :=
  match config.spec.namespaceSelector.nameRegex with
  | some r =>
    if compileOk r then validateTemplatesNonEmpty config
    else some "invalid nameRegex"
  | none => validateTemplatesNonEmpty config

inductive REffect where
  | applyNs (name : String)
  | statusUpdate
  deriving DecidableEq

/-- reconcileRBACLoop walks all namespaces: a selector-evaluation error is
logged and skipped, a match is applied (fail-fast: an apply error aborts the
whole loop), and matched names accumulate in order. -/
def reconcileRBACLoop (rmatch : String → String → Bool × Option String)
    (applyErr : NamespaceObj → Option String) (config : NamespaceRBACConfig) :
    List NamespaceObj → Except String (List String) × List REffect
  | [] => (Except.ok [], [])
  | ns :: rest =>
    let m := NamespaceMatches rmatch ns config.spec.namespaceSelector
    if m.2.isSome then reconcileRBACLoop rmatch applyErr config rest
    else if m.1 then
      match applyErr ns with
      | some e =>
        (Except.error ("failed to apply RBAC for namespace " ++ ns.name ++ ": " ++ e),
         [REffect.applyNs ns.name])
      | none =>
        let next := reconcileRBACLoop rmatch applyErr config rest
        (next.1.map (fun applied => ns.name :: applied),
         REffect.applyNs ns.name :: next.2)
    else reconcileRBACLoop rmatch applyErr config rest

/-- reconcileRBAC: list all namespaces (listErr is the List call's result)
and process each one. -/
def reconcileRBAC (rmatch : String → String → Bool × Option String)
    (applyErr : NamespaceObj → Option String) (config : NamespaceRBACConfig)
    (listErr : Option String) (namespaces : List NamespaceObj) :
    Except String (List String) × List REffect :=
  match listErr with
  | some e => (Except.error ("failed to list namespaces: " ++ e), [])
  | none => reconcileRBACLoop rmatch applyErr config namespaces

/-- reconcileMain is the post-finalizer slice of Reconcile: mark Progressing,
validate (on failure set Degraded true, Ready false, Progressing false and
persist without applying anything), otherwise reconcile RBAC and set the
error or success conditions, persisting the status at the end. -/
def reconcileMain (compileOk : String → Bool)
    (rmatch : String → String → Bool × Option String) (listErr : Option String)
    (namespaces : List NamespaceObj) (applyErr : NamespaceObj → Option String)
    (config0 : NamespaceRBACConfig) : NamespaceRBACConfig × List REffect :=
  let cond0 := setCondition config0.status.conditions
    ⟨ConditionTypeProgressing, ConditionStatus.ctrue, "Reconciling",
      "Reconciling NamespaceRBACConfig"⟩
  let config := { config0 with status := { config0.status with conditions := cond0 } }
  match validateConfig compileOk config with
  | some msg =>
    let conds := setCondition config.status.conditions
      ⟨ConditionTypeDegraded, ConditionStatus.ctrue, ReasonValidationError, msg⟩
    let conds := setCondition conds
      ⟨ConditionTypeReady, ConditionStatus.cfalse, ReasonValidationError,
        "Configuration validation failed"⟩
    let conds := setCondition conds
      ⟨ConditionTypeProgressing, ConditionStatus.cfalse, ReasonValidationError,
        "Validation failed"⟩
    ({ config with status := { config.status with conditions := conds } },
     [REffect.statusUpdate])
  | none =>
    match reconcileRBAC rmatch applyErr config listErr namespaces with
    | (Except.error msg, effs) =>
      let conds := setCondition config.status.conditions
        ⟨ConditionTypeDegraded, ConditionStatus.ctrue, ReasonReconcileError, msg⟩
      let conds := setCondition conds
        ⟨ConditionTypeReady, ConditionStatus.cfalse, ReasonReconcileError,
          "RBAC reconciliation failed"⟩
      let conds := setCondition conds
        ⟨ConditionTypeProgressing, ConditionStatus.cfalse, ReasonReconcileError,
          "Reconciliation failed"⟩
      ({ config with status := { config.status with conditions := conds } },
       effs ++ [REffect.statusUpdate])
    | (Except.ok applied, effs) =>
      let status := { config.status with
        appliedNamespaces := applied
        observedGeneration := config.generation }
      let conds := setCondition status.conditions
        ⟨ConditionTypeReady, ConditionStatus.ctrue, ReasonReconcileSuccess,
          "Successfully reconciled RBAC"⟩
      let conds := setCondition conds
        ⟨ConditionTypeProgressing, ConditionStatus.cfalse, ReasonReconcileSuccess,
          "Reconciliation completed"⟩
      let conds := setCondition conds
        ⟨ConditionTypeDegraded, ConditionStatus.cfalse, ReasonReconcileSuccess,
          "No issues detected"⟩
      ({ config with status := { status with conditions := conds } },
       effs ++ [REffect.statusUpdate])

/-! ## Namespace reconciler (pkg/controller/namespace).  The create-or-update
handler walks every config, applying on match and cleaning up otherwise;
per-config errors are logged and the loop continues; afterwards a reconcile
is recorded to the health checker and success is returned. -/

inductive NEffect where
  | applied (configName : String) (failed : Bool)
  | cleaned (configName : String) (failed : Bool)
  | matchSkipped (configName : String)
  | recordReconcile
  deriving DecidableEq

def handleLoop (rmatch : String → String → Bool × Option String) (ns : NamespaceObj)
    (applyErr cleanupErr : NamespaceRBACConfig → Option String) :
    List NamespaceRBACConfig → List NEffect
  | [] => []
  | config :: rest =>
    let m := NamespaceMatches rmatch ns config.spec.namespaceSelector
    let eff :=
      if m.2.isSome then NEffect.matchSkipped config.name
      else if m.1 then NEffect.applied config.name (applyErr config).isSome
      else NEffect.cleaned config.name (cleanupErr config).isSome
    eff :: handleLoop rmatch ns applyErr cleanupErr rest

/-- handleNamespaceCreateOrUpdate returns the (requeue, error) pair of the
handler, which is structurally ctrl.Result none and a nil error, after the
per-config loop and the health-checker record. -/
def handleNamespaceCreateOrUpdate (rmatch : String → String → Bool × Option String)
    (ns : NamespaceObj) (configs : List NamespaceRBACConfig)
    (applyErr cleanupErr : NamespaceRBACConfig → Option String) :
    (Bool × Option String) × List NEffect :=
  ((false, none),
   handleLoop rmatch ns applyErr cleanupErr configs ++ [NEffect.recordReconcile])

/-! # Theorems -/

/-! ## Map model lemmas -/

theorem mapGet_mapSet_self {α : Type} (m : List (String × α)) (k : String) (v : α) :
    mapGet (mapSet m k v) k = some v := by
  induction m with
  | nil => simp [mapSet, mapGet]
  | cons p rest ih =>
    obtain ⟨k₀, v₀⟩ := p
    by_cases h : k₀ = k
    · simp [mapSet, h, mapGet]
    · simp [mapSet, h, mapGet, ih]

theorem mapGet_mapSet_ne {α : Type} (m : List (String × α)) {k k₀ : String} (v : α)
    (h : k₀ ≠ k) : mapGet (mapSet m k₀ v) k = mapGet m k := by
  induction m with
  | nil => simp [mapSet, mapGet, h]
  | cons p rest ih =>
    obtain ⟨k₁, v₁⟩ := p
    by_cases h₁ : k₁ = k₀
    · simp [mapSet, h₁, mapGet, h]
    · simp [mapSet, h₁, mapGet, ih]

theorem mapGet_eq_none_iff {α : Type} (m : List (String × α)) (k : String) :
    mapGet m k = none ↔ k ∉ mapKeys m := by
  induction m with
  | nil => simp [mapGet, mapKeys]
  | cons p rest ih =>
    obtain ⟨k₀, v₀⟩ := p
    by_cases h : k₀ = k
    · simp [mapGet, h, mapKeys]
    · simp [mapGet, h, mapKeys, ih]
      intro hk
      exact fun hkk => h hkk.symm

theorem mapKeys_mapSet {α : Type} (m : List (String × α)) (k : String) (v : α) :
    mapKeys (mapSet m k v) =
      if k ∈ mapKeys m then mapKeys m else mapKeys m ++ [k] := by
  induction m with
  | nil => simp [mapSet, mapKeys]
  | cons p rest ih =>
    obtain ⟨k₀, v₀⟩ := p
    by_cases h : k₀ = k
    · simp [mapSet, h, mapKeys]
    · have h₂ : ¬ k = k₀ := fun hk => h hk.symm
      simp only [mapKeys] at ih ⊢
      simp only [mapSet, if_neg h, List.map_cons, List.mem_cons, h₂, false_or]
      rw [ih]
      by_cases hmem : k ∈ List.map (fun p => p.1) rest <;> simp [hmem]

theorem mapSet_append_of_not_mem {α : Type} (m : List (String × α)) {k : String} (v : α)
    (h : k ∉ mapKeys m) : mapSet m k v = m ++ [(k, v)] := by
  induction m with
  | nil => simp [mapSet]
  | cons p rest ih =>
    obtain ⟨k₀, v₀⟩ := p
    simp [mapKeys] at h
    have h₁ : ¬ k₀ = k := fun hk => h.1 hk.symm
    simp [mapSet, h₁, ih (by simpa [mapKeys] using h.2)]

/-- Extensionality for association lists with nodup keys: equal key sequences
and equal lookups force equal lists. -/
theorem mapExt {α : Type} : ∀ (m m' : List (String × α)),
    mapKeys m = mapKeys m' → (mapKeys m).Nodup →
    (∀ k, mapGet m k = mapGet m' k) → m = m'
  | [], [], _, _, _ => rfl
  | [], (k, v) :: t', hk, _, _ => by simp [mapKeys] at hk
  | (k, v) :: t, [], hk, _, _ => by simp [mapKeys] at hk
  | (k, v) :: t, (k', v') :: t', hk, hnd, hget => by
    have hk' : k :: mapKeys t = k' :: mapKeys t' := hk
    have hkk : k = k' := (List.cons.inj hk').1
    have htk : mapKeys t = mapKeys t' := (List.cons.inj hk').2
    subst hkk
    have hnd' : k ∉ mapKeys t ∧ (mapKeys t).Nodup := by
      have hnd2 : (k :: mapKeys t).Nodup := hnd
      exact List.nodup_cons.mp hnd2
    have hv : v = v' := by
      have h0 := hget k
      simpa [mapGet] using h0
    subst hv
    have htails : ∀ k₀, mapGet t k₀ = mapGet t' k₀ := by
      intro k₀
      by_cases h : k₀ = k
      · subst h
        have h₁ : mapGet t k₀ = none := (mapGet_eq_none_iff t k₀).mpr hnd'.1
        have h₂ : mapGet t' k₀ = none := by
          rw [mapGet_eq_none_iff, ← htk]
          exact hnd'.1
        rw [h₁, h₂]
      · have h0 := hget k₀
        have hne : ¬ k = k₀ := fun hkk => h hkk.symm
        simpa [mapGet, hne] using h0
    rw [mapExt t t' htk hnd'.2 htails]

theorem mapSet_entry_key {α : Type} (f : α → String) :
    ∀ (m : List (String × α)) (k : String) (v : α),
    (∀ p ∈ m, p.1 = f p.2) → k = f v → ∀ p ∈ mapSet m k v, p.1 = f p.2
  | [], k, v, _, hkv, p, hp => by
    simp [mapSet] at hp
    simp [hp, hkv]
  | (k₀, v₀) :: rest, k, v, hent, hkv, p, hp => by
    by_cases h : k₀ = k
    · rw [mapSet, if_pos h] at hp
      rcases List.mem_cons.mp hp with hp | hp
      · simp [hp, hkv]
      · exact hent p (List.mem_cons_of_mem _ hp)
    · rw [mapSet, if_neg h] at hp
      rcases List.mem_cons.mp hp with hp | hp
      · exact hent p (by simp [hp])
      · exact mapSet_entry_key f rest k v
          (fun q hq => hent q (List.mem_cons_of_mem _ hq)) hkv p hp

/-! ## Subject-map lemmas for merge idempotence -/

theorem SubjWF_nil : SubjWF [] := by simp [SubjWF, mapKeys]

theorem SubjWF_insertSubject {m : List (String × Subject)} (h : SubjWF m) (s : Subject) :
    SubjWF (insertSubject m s) := by
  obtain ⟨hnd, hent⟩ := h
  constructor
  · rw [insertSubject, mapKeys_mapSet]
    by_cases hmem : subjectKey s ∈ mapKeys m
    · simpa [hmem] using hnd
    · rw [if_neg hmem]
      apply List.Nodup.append hnd (List.nodup_singleton _)
      intro x hx hx'
      simp at hx'
      subst hx'
      exact hmem hx
  · exact mapSet_entry_key subjectKey m (subjectKey s) s hent rfl

theorem SubjWF_foldl {m : List (String × Subject)} (h : SubjWF m) (l : List Subject) :
    SubjWF (l.foldl insertSubject m) := by
  induction l generalizing m with
  | nil => simpa using h
  | cons s rest ih => exact ih (SubjWF_insertSubject h s)

theorem lastVal_isSome_of_mem {s : Subject} : ∀ {l : List Subject},
    s ∈ l → (lastVal (subjectKey s) l).isSome := by
  intro l
  induction l with
  | nil => intro h; simp at h
  | cons x rest ih =>
    intro h
    rw [lastVal]
    cases hr : lastVal (subjectKey s) rest with
    | some t => simp
    | none =>
      rcases List.mem_cons.mp h with h | h
      · simp [h]
      · have := ih h
        rw [hr] at this
        simp at this

theorem mapGet_foldl_insertSubject (l : List Subject) :
    ∀ (m : List (String × Subject)) (k : String),
    mapGet (l.foldl insertSubject m) k =
      match lastVal k l with
      | some t => some t
      | none => mapGet m k := by
  induction l with
  | nil => intro m k; simp [lastVal]
  | cons s rest ih =>
    intro m k
    have hstep : List.foldl insertSubject m (s :: rest) =
        rest.foldl insertSubject (insertSubject m s) := rfl
    rw [hstep, ih]
    rw [lastVal]
    cases hr : lastVal k rest with
    | some t => rfl
    | none =>
      by_cases hk : subjectKey s = k
      · subst hk
        simp [insertSubject, mapGet_mapSet_self]
      · simp [hk, insertSubject, mapGet_mapSet_ne m s hk]

theorem mapKeys_foldl_of_subset (l : List Subject) :
    ∀ (m : List (String × Subject)), (∀ s ∈ l, subjectKey s ∈ mapKeys m) →
    mapKeys (l.foldl insertSubject m) = mapKeys m := by
  induction l with
  | nil => intro m _; rfl
  | cons s rest ih =>
    intro m hsub
    have hmem : subjectKey s ∈ mapKeys m := hsub s (by simp)
    have hkeys : mapKeys (insertSubject m s) = mapKeys m := by
      rw [insertSubject, mapKeys_mapSet]
      simp [hmem]
    have hstep : List.foldl insertSubject m (s :: rest) =
        rest.foldl insertSubject (insertSubject m s) := rfl
    rw [hstep, ih (insertSubject m s) (fun t ht => by
      rw [hkeys]; exact hsub t (List.mem_cons_of_mem _ ht))]
    exact hkeys

/-- Folding the same subject list a second time over the map it produced
changes nothing: each re-insert rewrites a present key with the value the map
already stores for it. -/
theorem foldl_insertSubject_absorb (l : List Subject) (m : List (String × Subject))
    (hwf : SubjWF m) :
    l.foldl insertSubject (l.foldl insertSubject m) = l.foldl insertSubject m := by
  have hwf1 : SubjWF (l.foldl insertSubject m) := SubjWF_foldl hwf l
  have hkeys : mapKeys (l.foldl insertSubject (l.foldl insertSubject m)) =
      mapKeys (l.foldl insertSubject m) := by
    apply mapKeys_foldl_of_subset
    intro s hs
    have hsome := lastVal_isSome_of_mem hs
    cases hv : lastVal (subjectKey s) l with
    | none => rw [hv] at hsome; simp at hsome
    | some t =>
      have hget := mapGet_foldl_insertSubject l m (subjectKey s)
      rw [hv] at hget
      by_contra hmem
      have hnone := (mapGet_eq_none_iff (l.foldl insertSubject m) (subjectKey s)).mpr hmem
      rw [hget] at hnone
      simp at hnone
  apply mapExt _ _ hkeys
  · rw [hkeys]
    exact hwf1.1
  · intro k
    rw [mapGet_foldl_insertSubject]
    cases hv : lastVal k l with
    | some t =>
      rw [mapGet_foldl_insertSubject, hv]
    | none => rfl

/-- Rebuilding a well-formed subject map from its value list by the same
insertion fold reproduces the map. -/
theorem foldl_insertSubject_rebuild : ∀ (t : List (String × Subject))
    (m₀ : List (String × Subject)), SubjWF (m₀ ++ t) →
    (t.map (fun p => p.2)).foldl insertSubject m₀ = m₀ ++ t := by
  intro t
  induction t with
  | nil => intro m₀ _; simp
  | cons p rest ih =>
    intro m₀ hwf
    obtain ⟨k, v⟩ := p
    have hk : k = subjectKey v := hwf.2 (k, v) (by simp)
    have hmk : mapKeys (m₀ ++ (k, v) :: rest) = mapKeys m₀ ++ k :: mapKeys rest := by
      simp [mapKeys]
    have hnd := hwf.1
    rw [hmk] at hnd
    have hdisj := (List.nodup_append.mp hnd).2.2
    have hknotin : k ∉ mapKeys m₀ := by
      intro hmem
      exact hdisj hmem (by simp)
    have hins : insertSubject m₀ v = m₀ ++ [(k, v)] := by
      rw [insertSubject, ← hk]
      exact mapSet_append_of_not_mem m₀ v hknotin
    have hstep : ((k, v) :: rest).map (fun p => p.2) = v :: rest.map (fun p => p.2) := rfl
    rw [hstep]
    have hfold : (v :: rest.map (fun p => p.2)).foldl insertSubject m₀ =
        (rest.map (fun p => p.2)).foldl insertSubject (insertSubject m₀ v) := rfl
    rw [hfold, hins, ih (m₀ ++ [(k, v)]) (by rw [List.append_assoc]; exact hwf)]
    simp

/-! ## Claim C1 -/

/-- C1 counterexample: merging the same new rule list twice is not idempotent;
with an empty existing rule list and one new rule, the second merge appends
the rule again, so the twice-merged rule set differs from the once-merged
one. -/
theorem C1_counterexample :
    ¬ (mergeRules (mergeRules [] [⟨[""], ["pods"], [], [], ["get"]⟩])
        [⟨[""], ["pods"], [], [], ["get"]⟩] =
      mergeRules [] [⟨[""], ["pods"], [], [], ["get"]⟩]) := by
  simp [mergeRules]

/-- C1 (amended): applying the merge strategy twice with identical template
output is idempotent for subjects (deduplicated by the composite key
kind+apiGroup+name+namespace), but not for rules: mergeRules concatenates
without deduplication, so the second merge appends the new rules again. -/
theorem C1_merge_twice :
    (∀ E N : List Subject, mergeSubjects (mergeSubjects E N) N = mergeSubjects E N) ∧
    (∀ E N : List PolicyRule, mergeRules (mergeRules E N) N = (E ++ N) ++ N) := by
  constructor
  · intro E N
    have hwfE : SubjWF (E.foldl insertSubject []) := SubjWF_foldl SubjWF_nil E
    have hwfM : SubjWF (N.foldl insertSubject (E.foldl insertSubject [])) :=
      SubjWF_foldl hwfE N
    have hreb := foldl_insertSubject_rebuild
      (N.foldl insertSubject (E.foldl insertSubject [])) [] (by simpa using hwfM)
    have habs := foldl_insertSubject_absorb N (E.foldl insertSubject []) hwfE
    simp only [mergeSubjects]
    rw [show (((N.foldl insertSubject (E.foldl insertSubject [])).map
        (fun p => p.2)).foldl insertSubject []) =
      N.foldl insertSubject (E.foldl insertSubject []) from by simpa using hreb]
    rw [habs]
  · intro E N
    rfl

/-! ## Claim C2 -/

/-- C2: for every template label map (including one that sets the same keys),
the merged label map contains the owner label with value
namespace-rbac-operator and the config label with the declaration's name;
the operator-managed labels are set after the template labels, so a template
label of the same key never overrides them. -/
theorem C2_operator_labels (templateLabels : LMap) (config : NamespaceRBACConfig)
    (targetNamespace : String) :
    mapGet (mergeLabels templateLabels config targetNamespace) OwnerLabel =
      some "namespace-rbac-operator" ∧
    mapGet (mergeLabels templateLabels config targetNamespace) ConfigLabel =
      some config.name := by
  have hon : NamespaceLabel ≠ OwnerLabel := by decide
  have hcn : NamespaceLabel ≠ ConfigLabel := by decide
  have hco : ConfigLabel ≠ OwnerLabel := by decide
  unfold mergeLabels
  by_cases h : targetNamespace = ""
  · simp [h, mapGet_mapSet_self, mapGet_mapSet_ne _ _ hco]
  · simp [h, mapGet_mapSet_self, mapGet_mapSet_ne _ _ hon, mapGet_mapSet_ne _ _ hcn,
      mapGet_mapSet_ne _ _ hco]

/-! ## Claim C3 -/

/-- C3 counterexample: a generated cluster-scoped object does carry the
target-partition label: applyClusterRole passes the triggering namespace's
name to mergeLabels, so the resulting ClusterRole has the namespace label
set to that name rather than omitting it. -/
theorem C3_counterexample :
    mapGet (clusterRoleObjectFor "test-clusterrole" [] [] []
      ⟨"test-config", 0, ⟨⟨none, none, none, [], []⟩, ⟨[], [], [], []⟩, none⟩, ⟨[], [], 0⟩⟩
      ⟨"test-ns", none, none⟩).labels NamespaceLabel = some "test-ns" := by
  rfl

/-- C3 (amended): the target-partition label is applied to namespace-scoped
and cluster-scoped generated objects alike; mergeLabels omits it only when
the target namespace is the empty string, and all apply paths pass the
(non-empty) name of the namespace being processed. -/
theorem C3_namespace_label_all_kinds (name : String) (labels annotations : LMap)
    (rules : List PolicyRule) (config : NamespaceRBACConfig) (ns : NamespaceObj)
    (h : ns.name ≠ "") :
    mapGet (clusterRoleObjectFor name labels annotations rules config ns).labels
      NamespaceLabel = some ns.name ∧
    mapGet (roleObjectFor name labels annotations rules config ns).labels
      NamespaceLabel = some ns.name := by
  constructor <;>
    simp [clusterRoleObjectFor, roleObjectFor, mergeLabels, h, mapGet_mapSet_self]

/-- C3 amended-claim witness at a concrete namespace. -/
theorem C3_namespace_label_all_kinds_witness :
    mapGet (clusterRoleObjectFor "cr" [] [] []
      ⟨"cfg", 0, ⟨⟨none, none, none, [], []⟩, ⟨[], [], [], []⟩, none⟩, ⟨[], [], 0⟩⟩
      ⟨"ns-a", none, none⟩).labels NamespaceLabel = some "ns-a" ∧
    mapGet (roleObjectFor "cr" [] [] []
      ⟨"cfg", 0, ⟨⟨none, none, none, [], []⟩, ⟨[], [], [], []⟩, none⟩, ⟨[], [], 0⟩⟩
      ⟨"ns-a", none, none⟩).labels NamespaceLabel = some "ns-a" :=
  C3_namespace_label_all_kinds "cr" [] [] []
    ⟨"cfg", 0, ⟨⟨none, none, none, [], []⟩, ⟨[], [], [], []⟩, none⟩, ⟨[], [], 0⟩⟩
    ⟨"ns-a", none, none⟩ (by decide)

/-! ## Claim C4 -/

/-- C4: for every namespace and selector, a name in the exclusion list makes
NamespaceMatches return false regardless of the inclusion list, name regex,
required labels or annotations; and a non-empty inclusion list makes it
return false for any name absent from it. -/
theorem C4_exclusion_inclusion (rmatch : String → String → Bool × Option String)
    (ns : NamespaceObj) (selector : NamespaceSelector) :
    (ns.name ∈ selector.excludeNamespaces →
      NamespaceMatches rmatch ns selector = (false, none)) ∧
    (selector.includeNamespaces ≠ [] → ns.name ∉ selector.includeNamespaces →
      NamespaceMatches rmatch ns selector = (false, none)) := by
  constructor
  · intro h
    simp [NamespaceMatches, h]
  · intro h₁ h₂
    by_cases hex : ns.name ∈ selector.excludeNamespaces
    · simp [NamespaceMatches, hex]
    · have hlen : 0 < selector.includeNamespaces.length := List.length_pos.mpr h₁
      simp [NamespaceMatches, hex, hlen, h₂]

/-- C4 witness: a namespace excluded by name, and one absent from a non-empty
inclusion list, both fail to match. -/
theorem C4_exclusion_inclusion_witness :
    NamespaceMatches (fun _ _ => (true, none)) ⟨"ns-x", none, none⟩
      ⟨none, none, none, [], ["ns-x"]⟩ = (false, none) ∧
    NamespaceMatches (fun _ _ => (true, none)) ⟨"ns-x", none, none⟩
      ⟨none, none, none, ["other"], []⟩ = (false, none) :=
  ⟨(C4_exclusion_inclusion (fun _ _ => (true, none)) ⟨"ns-x", none, none⟩
      ⟨none, none, none, [], ["ns-x"]⟩).1 (by decide),
   (C4_exclusion_inclusion (fun _ _ => (true, none)) ⟨"ns-x", none, none⟩
      ⟨none, none, none, ["other"], []⟩).2 (by decide) (by decide)⟩

/-! ## Claim C9 -/

/-- C9: a non-nil annotations requirement (even an empty map requiring
nothing) makes NamespaceMatches return false against a namespace whose
annotation map is nil; the same holds for a non-nil labels requirement
against a nil label map. -/
theorem C9_nil_requirement_maps (rmatch : String → String → Bool × Option String)
    (ns : NamespaceObj) (selector : NamespaceSelector) :
    ((selector.annotations).isSome → ns.annotations = none →
      (NamespaceMatches rmatch ns selector).1 = false) ∧
    ((selector.labels).isSome → ns.labels = none →
      (NamespaceMatches rmatch ns selector).1 = false) := by
  constructor
  · intro hsel hns
    obtain ⟨req, hreq⟩ := Option.isSome_iff_exists.mp hsel
    simp only [NamespaceMatches, hreq, hns]
    repeat' split
    all_goals simp
  · intro hsel hns
    obtain ⟨req, hreq⟩ := Option.isSome_iff_exists.mp hsel
    simp only [NamespaceMatches, hreq, hns]
    repeat' split
    all_goals simp

/-- C9 witness: empty-but-present requirement maps against nil namespace
maps. -/
theorem C9_nil_requirement_maps_witness :
    (NamespaceMatches (fun _ _ => (true, none)) ⟨"ns-1", none, none⟩
      ⟨none, some [], none, [], []⟩).1 = false ∧
    (NamespaceMatches (fun _ _ => (true, none)) ⟨"ns-1", none, none⟩
      ⟨none, none, some [], [], []⟩).1 = false :=
  ⟨(C9_nil_requirement_maps (fun _ _ => (true, none)) ⟨"ns-1", none, none⟩
      ⟨none, some [], none, [], []⟩).1 (by decide) rfl,
   (C9_nil_requirement_maps (fun _ _ => (true, none)) ⟨"ns-1", none, none⟩
      ⟨none, none, some [], [], []⟩).2 (by decide) rfl⟩

/-! ## Claim C5 -/

theorem createOrUpdateRoleLoop_count_le (get : Nat → GetRes RoleObj) (create : WriteRes)
    (update : Nat → WriteRes) (config : NamespaceRBACConfig) :
    ∀ (fuel i : Nat) (role : RoleObj),
    (createOrUpdateRoleLoop get create update config fuel i role).2.count Effect.eget ≤
      fuel ∧
    (createOrUpdateRoleLoop get create update config fuel i role).2.count Effect.eupdate ≤
      fuel := by
  intro fuel
  induction fuel with
  | zero =>
    intro i role
    simp [createOrUpdateRoleLoop]
  | succ n ih =>
    intro i role
    simp only [createOrUpdateRoleLoop]
    cases hg : get i with
    | notFound =>
      cases create <;> simp [List.count_cons]
    | failed c => simp [List.count_cons]
    | found existing =>
      cases hs : effectiveMergeStrategy config with
      | ignore => simp [List.count_cons]
      | unknown s => simp [List.count_cons]
      | replace =>
        cases hu : update i with
        | ok => simp [List.count_cons]
        | failed c =>
          cases c with
          | false => simp [List.count_cons]
          | true =>
            have hih := ih (i + 1) { role with resourceVersion := existing.resourceVersion }
            simp [List.count_cons] at hih ⊢
            omega
      | merge =>
        cases hu : update i with
        | ok => simp [List.count_cons]
        | failed c =>
          cases c with
          | false => simp [List.count_cons]
          | true =>
            have hih := ih (i + 1) { role with
              rules := mergeRules existing.rules role.rules
              resourceVersion := existing.resourceVersion }
            simp [List.count_cons] at hih ⊢
            omega

theorem createOrUpdateRoleBindingLoop_count_le (get : Nat → GetRes RoleBindingObj)
    (create : WriteRes) (update : Nat → WriteRes) (config : NamespaceRBACConfig) :
    ∀ (fuel i : Nat) (roleBinding : RoleBindingObj),
    (createOrUpdateRoleBindingLoop get create update config fuel i
      roleBinding).2.count Effect.eget ≤ fuel ∧
    (createOrUpdateRoleBindingLoop get create update config fuel i
      roleBinding).2.count Effect.eupdate ≤ fuel := by
  intro fuel
  induction fuel with
  | zero =>
    intro i roleBinding
    simp [createOrUpdateRoleBindingLoop]
  | succ n ih =>
    intro i roleBinding
    simp only [createOrUpdateRoleBindingLoop]
    cases hg : get i with
    | notFound =>
      cases create <;> simp [List.count_cons]
    | failed c => simp [List.count_cons]
    | found existing =>
      cases hs : effectiveMergeStrategy config with
      | ignore => simp [List.count_cons]
      | unknown s => simp [List.count_cons]
      | replace =>
        cases hu : update i with
        | ok => simp [List.count_cons]
        | failed c =>
          cases c with
          | false => simp [List.count_cons]
          | true =>
            have hih := ih (i + 1)
              { roleBinding with resourceVersion := existing.resourceVersion }
            simp [List.count_cons] at hih ⊢
            omega
      | merge =>
        cases hu : update i with
        | ok => simp [List.count_cons]
        | failed c =>
          cases c with
          | false => simp [List.count_cons]
          | true =>
            have hih := ih (i + 1) { roleBinding with
              subjects := mergeSubjects existing.subjects roleBinding.subjects
              resourceVersion := existing.resourceVersion }
            simp [List.count_cons] at hih ⊢
            omega

/-- C5: the namespace-scoped upserts (Role, RoleBinding) perform at most 3
fetch-then-update attempts, retry only on a version-conflict update error
(terminal retries-exhausted error after 3 conflicted attempts), propagate a
non-conflict update error and a non-not-found fetch error immediately; the
cluster-scoped upserts perform a single attempt and return even a conflict
error without retrying. -/
theorem C5_conflict_retry_protocol :
    (∀ (get : Nat → GetRes RoleObj) (create : WriteRes) (update : Nat → WriteRes)
      (config : NamespaceRBACConfig) (role : RoleObj),
      (createOrUpdateRole get create update config role).2.count Effect.eget ≤ 3 ∧
      (createOrUpdateRole get create update config role).2.count Effect.eupdate ≤ 3) ∧
    (∀ (get : Nat → GetRes RoleBindingObj) (create : WriteRes) (update : Nat → WriteRes)
      (config : NamespaceRBACConfig) (rb : RoleBindingObj),
      (createOrUpdateRoleBinding get create update config rb).2.count Effect.eget ≤ 3 ∧
      (createOrUpdateRoleBinding get create update config rb).2.count Effect.eupdate ≤ 3) ∧
    (∀ (create : WriteRes) (config : NamespaceRBACConfig) (role e : RoleObj),
      effectiveMergeStrategy config = MergeStrategy.merge ∨
        effectiveMergeStrategy config = MergeStrategy.replace →
      createOrUpdateRole (fun _ => GetRes.found e) create (fun _ => WriteRes.failed true)
        config role =
        (UpsertResult.retriesExhausted,
         [Effect.eget, Effect.eupdate, Effect.eget, Effect.eupdate, Effect.eget,
          Effect.eupdate])) ∧
    (∀ (create : WriteRes) (config : NamespaceRBACConfig) (role e : RoleObj),
      effectiveMergeStrategy config = MergeStrategy.merge ∨
        effectiveMergeStrategy config = MergeStrategy.replace →
      (createOrUpdateRole (fun _ => GetRes.found e) create (fun _ => WriteRes.failed false)
        config role).1 = UpsertResult.storeErr false ∧
      (createOrUpdateRole (fun _ => GetRes.found e) create (fun _ => WriteRes.failed false)
        config role).2 = [Effect.eget, Effect.eupdate]) ∧
    (∀ (get : Nat → GetRes RoleObj) (create : WriteRes) (update : Nat → WriteRes)
      (config : NamespaceRBACConfig) (role : RoleObj) (c : Bool),
      get 0 = GetRes.failed c →
      createOrUpdateRole get create update config role =
        (UpsertResult.storeErr c, [Effect.eget])) ∧
    (∀ (create : WriteRes) (config : NamespaceRBACConfig) (cr e : ClusterRoleObj),
      effectiveMergeStrategy config = MergeStrategy.merge ∨
        effectiveMergeStrategy config = MergeStrategy.replace →
      createOrUpdateClusterRole (GetRes.found e) create (WriteRes.failed true) config cr =
        (UpsertResult.storeErr true, [Effect.eget, Effect.eupdate])) ∧
    (∀ (create : WriteRes) (config : NamespaceRBACConfig) (crb e : ClusterRoleBindingObj),
      effectiveMergeStrategy config = MergeStrategy.merge ∨
        effectiveMergeStrategy config = MergeStrategy.replace →
      createOrUpdateClusterRoleBinding (GetRes.found e) create (WriteRes.failed true)
        config crb =
        (UpsertResult.storeErr true, [Effect.eget, Effect.eupdate])) := by
  refine ⟨?_, ?_, ?_, ?_, ?_, ?_, ?_⟩
  · intro get create update config role
    exact createOrUpdateRoleLoop_count_le get create update config 3 0 role
  · intro get create update config rb
    exact createOrUpdateRoleBindingLoop_count_le get create update config 3 0 rb
  · intro create config role e hstrat
    rcases hstrat with h | h <;>
      simp [createOrUpdateRole, createOrUpdateRoleLoop, h]
  · intro create config role e hstrat
    rcases hstrat with h | h <;>
      simp [createOrUpdateRole, createOrUpdateRoleLoop, h]
  · intro get create update config role c hget
    simp [createOrUpdateRole, createOrUpdateRoleLoop, hget]
  · intro create config cr e hstrat
    rcases hstrat with h | h <;>
      simp [createOrUpdateClusterRole, h]
  · intro create config crb e hstrat
    rcases hstrat with h | h <;>
      simp [createOrUpdateClusterRoleBinding, h]

/-- C5 witness: concrete exhaustion after three conflicts, immediate
propagation of a non-conflict update error and of a fetch error, and the
single-attempt conflict propagation of the cluster-scoped upserts. -/
theorem C5_conflict_retry_protocol_witness :
    createOrUpdateRole (fun _ => GetRes.found ⟨"r", "ns", [], [], [], "5"⟩) WriteRes.ok
      (fun _ => WriteRes.failed true)
      ⟨"cfg", 0, ⟨⟨none, none, none, [], []⟩, ⟨[], [], [], []⟩,
        some ⟨none, some MergeStrategy.merge, none, none⟩⟩, ⟨[], [], 0⟩⟩
      ⟨"r", "ns", [], [], [], ""⟩ =
      (UpsertResult.retriesExhausted,
       [Effect.eget, Effect.eupdate, Effect.eget, Effect.eupdate, Effect.eget,
        Effect.eupdate]) ∧
    ((createOrUpdateRole (fun _ => GetRes.found ⟨"r", "ns", [], [], [], "5"⟩) WriteRes.ok
      (fun _ => WriteRes.failed false)
      ⟨"cfg", 0, ⟨⟨none, none, none, [], []⟩, ⟨[], [], [], []⟩,
        some ⟨none, some MergeStrategy.merge, none, none⟩⟩, ⟨[], [], 0⟩⟩
      ⟨"r", "ns", [], [], [], ""⟩).1 = UpsertResult.storeErr false ∧
     (createOrUpdateRole (fun _ => GetRes.found ⟨"r", "ns", [], [], [], "5"⟩) WriteRes.ok
      (fun _ => WriteRes.failed false)
      ⟨"cfg", 0, ⟨⟨none, none, none, [], []⟩, ⟨[], [], [], []⟩,
        some ⟨none, some MergeStrategy.merge, none, none⟩⟩, ⟨[], [], 0⟩⟩
      ⟨"r", "ns", [], [], [], ""⟩).2 = [Effect.eget, Effect.eupdate]) ∧
    createOrUpdateRole (fun _ => GetRes.failed false) WriteRes.ok
      (fun _ => WriteRes.ok)
      ⟨"cfg", 0, ⟨⟨none, none, none, [], []⟩, ⟨[], [], [], []⟩, none⟩, ⟨[], [], 0⟩⟩
      ⟨"r", "ns", [], [], [], ""⟩ = (UpsertResult.storeErr false, [Effect.eget]) ∧
    createOrUpdateClusterRole (GetRes.found ⟨"cr", [], [], [], "7"⟩) WriteRes.ok
      (WriteRes.failed true)
      ⟨"cfg", 0, ⟨⟨none, none, none, [], []⟩, ⟨[], [], [], []⟩, none⟩, ⟨[], [], 0⟩⟩
      ⟨"cr", [], [], [], ""⟩ =
      (UpsertResult.storeErr true, [Effect.eget, Effect.eupdate]) ∧
    createOrUpdateClusterRoleBinding
      (GetRes.found ⟨"crb", [], [], ⟨"g", "k", "n"⟩, [], "9"⟩) WriteRes.ok
      (WriteRes.failed true)
      ⟨"cfg", 0, ⟨⟨none, none, none, [], []⟩, ⟨[], [], [], []⟩, none⟩, ⟨[], [], 0⟩⟩
      ⟨"crb", [], [], ⟨"g", "k", "n"⟩, [], ""⟩ =
      (UpsertResult.storeErr true, [Effect.eget, Effect.eupdate]) :=
  ⟨C5_conflict_retry_protocol.2.2.1 WriteRes.ok _ _ _ (Or.inl rfl),
   C5_conflict_retry_protocol.2.2.2.1 WriteRes.ok _ _ _ (Or.inl rfl),
   C5_conflict_retry_protocol.2.2.2.2.1 _ WriteRes.ok _ _ _ false rfl,
   C5_conflict_retry_protocol.2.2.2.2.2.1 WriteRes.ok _ _ _ (Or.inl rfl),
   C5_conflict_retry_protocol.2.2.2.2.2.2 WriteRes.ok _ _ _ (Or.inl rfl)⟩

/-! ## Claim C8 -/

/-- C8: under the ignore strategy, whenever the target object already exists
the upsert returns success after the fetch alone: no create or update is
issued against the store (the effect trace is a single get), so the existing
object's rules, subjects, labels and annotations are left unchanged even
when the newly generated object differs. -/
theorem C8_ignore_never_writes :
    (∀ (get : Nat → GetRes RoleObj) (create : WriteRes) (update : Nat → WriteRes)
      (config : NamespaceRBACConfig) (role e : RoleObj),
      effectiveMergeStrategy config = MergeStrategy.ignore → get 0 = GetRes.found e →
      createOrUpdateRole get create update config role =
        (UpsertResult.ignored, [Effect.eget])) ∧
    (∀ (get : Nat → GetRes RoleBindingObj) (create : WriteRes) (update : Nat → WriteRes)
      (config : NamespaceRBACConfig) (rb e : RoleBindingObj),
      effectiveMergeStrategy config = MergeStrategy.ignore → get 0 = GetRes.found e →
      createOrUpdateRoleBinding get create update config rb =
        (UpsertResult.ignored, [Effect.eget])) ∧
    (∀ (get : GetRes ClusterRoleObj) (create update : WriteRes)
      (config : NamespaceRBACConfig) (cr e : ClusterRoleObj),
      effectiveMergeStrategy config = MergeStrategy.ignore → get = GetRes.found e →
      createOrUpdateClusterRole get create update config cr =
        (UpsertResult.ignored, [Effect.eget])) ∧
    (∀ (get : GetRes ClusterRoleBindingObj) (create update : WriteRes)
      (config : NamespaceRBACConfig) (crb e : ClusterRoleBindingObj),
      effectiveMergeStrategy config = MergeStrategy.ignore → get = GetRes.found e →
      createOrUpdateClusterRoleBinding get create update config crb =
        (UpsertResult.ignored, [Effect.eget])) := by
  refine ⟨?_, ?_, ?_, ?_⟩
  · intro get create update config role e hstrat hget
    simp [createOrUpdateRole, createOrUpdateRoleLoop, hstrat, hget]
  · intro get create update config rb e hstrat hget
    simp [createOrUpdateRoleBinding, createOrUpdateRoleBindingLoop, hstrat, hget]
  · intro get create update config cr e hstrat hget
    simp [createOrUpdateClusterRole, hstrat, hget]
  · intro get create update config crb e hstrat hget
    simp [createOrUpdateClusterRoleBinding, hstrat, hget]

/-- C8 witness: with the ignore strategy configured and a differing existing
object in the store, each upsert returns success with a fetch as its only
store operation. -/
theorem C8_ignore_never_writes_witness :
    createOrUpdateRole (fun _ => GetRes.found ⟨"r", "ns", [], [],
        [⟨[""], ["pods"], [], [], ["get"]⟩], "5"⟩) WriteRes.ok (fun _ => WriteRes.ok)
      ⟨"cfg", 0, ⟨⟨none, none, none, [], []⟩, ⟨[], [], [], []⟩,
        some ⟨none, some MergeStrategy.ignore, none, none⟩⟩, ⟨[], [], 0⟩⟩
      ⟨"r", "ns", [], [], [], ""⟩ = (UpsertResult.ignored, [Effect.eget]) ∧
    createOrUpdateRoleBinding (fun _ => GetRes.found ⟨"rb", "ns", [], [],
        ⟨"g", "k", "n"⟩, [⟨"Group", "g", "developers", ""⟩], "5"⟩) WriteRes.ok
      (fun _ => WriteRes.ok)
      ⟨"cfg", 0, ⟨⟨none, none, none, [], []⟩, ⟨[], [], [], []⟩,
        some ⟨none, some MergeStrategy.ignore, none, none⟩⟩, ⟨[], [], 0⟩⟩
      ⟨"rb", "ns", [], [], ⟨"g", "k", "n"⟩, [], ""⟩ =
      (UpsertResult.ignored, [Effect.eget]) ∧
    createOrUpdateClusterRole (GetRes.found ⟨"cr", [], [],
        [⟨[""], ["pods"], [], [], ["get"]⟩], "7"⟩) WriteRes.ok WriteRes.ok
      ⟨"cfg", 0, ⟨⟨none, none, none, [], []⟩, ⟨[], [], [], []⟩,
        some ⟨none, some MergeStrategy.ignore, none, none⟩⟩, ⟨[], [], 0⟩⟩
      ⟨"cr", [], [], [], ""⟩ = (UpsertResult.ignored, [Effect.eget]) ∧
    createOrUpdateClusterRoleBinding (GetRes.found ⟨"crb", [], [],
        ⟨"g", "k", "n"⟩, [⟨"Group", "g", "admins", ""⟩], "9"⟩) WriteRes.ok WriteRes.ok
      ⟨"cfg", 0, ⟨⟨none, none, none, [], []⟩, ⟨[], [], [], []⟩,
        some ⟨none, some MergeStrategy.ignore, none, none⟩⟩, ⟨[], [], 0⟩⟩
      ⟨"crb", [], [], ⟨"g", "k", "n"⟩, [], ""⟩ =
      (UpsertResult.ignored, [Effect.eget]) :=
  ⟨C8_ignore_never_writes.1 _ WriteRes.ok _ _ _ _ rfl rfl,
   C8_ignore_never_writes.2.1 _ WriteRes.ok _ _ _ _ rfl rfl,
   C8_ignore_never_writes.2.2.1 _ WriteRes.ok WriteRes.ok _ _ _ rfl rfl,
   C8_ignore_never_writes.2.2.2 _ WriteRes.ok WriteRes.ok _ _ _ rfl rfl⟩

/-! ## Claim C6 -/

theorem execTemplate_error_of_nodeFails (ctx : TemplateContext) :
    ∀ (nodes : List TemplateNode), (∃ n ∈ nodes, nodeFails ctx n = true) →
    ∃ e, execTemplate ctx nodes = Except.error e := by
  intro nodes
  induction nodes with
  | nil =>
    rintro ⟨n, hn, _⟩
    simp at hn
  | cons hd rest ih =>
    rintro ⟨n, hn, hf⟩
    cases hd with
    | text s =>
      have hnr : n ∈ rest := by
        rcases List.mem_cons.mp hn with h | h
        · subst h
          simp [nodeFails] at hf
        · exact h
      obtain ⟨e, he⟩ := ih ⟨n, hnr, hf⟩
      exact ⟨e, by simp [execTemplate, he]⟩
    | field path =>
      cases hev : evalField ctx path with
      | error e => exact ⟨e, by simp [execTemplate, hev]⟩
      | ok v =>
        have hnr : n ∈ rest := by
          rcases List.mem_cons.mp hn with h | h
          · subst h
            simp [nodeFails, hev] at hf
          · exact h
        obtain ⟨e, he⟩ := ih ⟨n, hnr, hf⟩
        exact ⟨e, by simp [execTemplate, hev, he]⟩

/-- C6: ProcessTemplate executes in strict mode and returns an error, never a
silently empty substitution, whenever the template references a field
undefined on the context; ValidateTemplate only parses, so it accepts every
syntactically valid template (including one referencing a nonexistent field)
and reports only syntax errors. -/
theorem C6_strict_mode_and_validation :
    (∀ (ctx : TemplateContext) (nodes : List TemplateNode),
      (∃ n ∈ nodes, nodeFails ctx n = true) →
      ∃ e, ProcessTemplate (Except.ok nodes) ctx = Except.error e) ∧
    (∀ nodes : List TemplateNode, ValidateTemplate (Except.ok nodes) = none) ∧
    (∀ e : String, ValidateTemplate (Except.error e) = some e) := by
  refine ⟨?_, ?_, ?_⟩
  · intro ctx nodes h
    obtain ⟨e, he⟩ := execTemplate_error_of_nodeFails ctx nodes h
    exact ⟨"failed to execute template: " ++ e, by simp [ProcessTemplate, he]⟩
  · intro nodes
    rfl
  · intro e
    rfl

/-- C6 witness: a syntactically valid template referencing the nonexistent
field Invalid passes validation but fails execution. -/
theorem C6_strict_mode_and_validation_witness :
    (∃ e, ProcessTemplate (Except.ok [TemplateNode.field ["Invalid"]])
      ⟨⟨"test-ns", [], []⟩, ⟨"cfg", ""⟩, ⟨⟨"", "", "-"⟩⟩, []⟩ = Except.error e) ∧
    ValidateTemplate (Except.ok [TemplateNode.field ["Invalid"]]) = none :=
  ⟨C6_strict_mode_and_validation.1 ⟨⟨"test-ns", [], []⟩, ⟨"cfg", ""⟩, ⟨⟨"", "", "-"⟩⟩, []⟩
      [TemplateNode.field ["Invalid"]] ⟨TemplateNode.field ["Invalid"], by simp, rfl⟩,
   C6_strict_mode_and_validation.2.1 [TemplateNode.field ["Invalid"]]⟩

/-! ## Claim C7 -/

theorem getCondition_setCondition_self (conds : List Condition) (c : Condition) :
    getCondition (setCondition conds c) c.type_ = some c := by
  induction conds with
  | nil => simp [setCondition, getCondition]
  | cons e rest ih =>
    by_cases h : e.type_ = c.type_
    · simp [setCondition, h, getCondition]
    · simp [setCondition, h, getCondition, ih]

theorem getCondition_setCondition_ne (conds : List Condition) (c : Condition)
    (t : String) (h : c.type_ ≠ t) :
    getCondition (setCondition conds c) t = getCondition conds t := by
  induction conds with
  | nil => simp [setCondition, getCondition, h]
  | cons e rest ih =>
    by_cases he : e.type_ = c.type_
    · have h2 : e.type_ ≠ t := by
        rw [he]
        exact h
      simp [setCondition, he, getCondition, h, h2]
    · simp [setCondition, he, getCondition, ih]

/-- C7: on a validation failure (selector regex that fails to compile, or all
four template lists empty) the reconcile sets Degraded true, Ready false and
Progressing false with the validation-error reason, persists the status
once, and stops without applying any template to any namespace (no apply
effect is emitted). -/
theorem C7_validation_failure (compileOk : String → Bool)
    (rmatch : String → String → Bool × Option String) (listErr : Option String)
    (namespaces : List NamespaceObj) (applyErr : NamespaceObj → Option String)
    (config : NamespaceRBACConfig)
    (hval : (∃ r, config.spec.namespaceSelector.nameRegex = some r ∧ compileOk r = false) ∨
      (config.spec.rbacTemplates.roles = [] ∧
       config.spec.rbacTemplates.clusterRoles = [] ∧
       config.spec.rbacTemplates.roleBindings = [] ∧
       config.spec.rbacTemplates.clusterRoleBindings = [])) :
    (∃ msg, getCondition (reconcileMain compileOk rmatch listErr namespaces applyErr
        config).1.status.conditions ConditionTypeDegraded =
      some ⟨ConditionTypeDegraded, ConditionStatus.ctrue, ReasonValidationError, msg⟩) ∧
    getCondition (reconcileMain compileOk rmatch listErr namespaces applyErr
        config).1.status.conditions ConditionTypeReady =
      some ⟨ConditionTypeReady, ConditionStatus.cfalse, ReasonValidationError,
        "Configuration validation failed"⟩ ∧
    getCondition (reconcileMain compileOk rmatch listErr namespaces applyErr
        config).1.status.conditions ConditionTypeProgressing =
      some ⟨ConditionTypeProgressing, ConditionStatus.cfalse, ReasonValidationError,
        "Validation failed"⟩ ∧
    (reconcileMain compileOk rmatch listErr namespaces applyErr config).2 =
      [REffect.statusUpdate] := by
  obtain ⟨msg, hmsg⟩ : ∃ msg, validateConfig compileOk config = some msg := by
    rcases hval with ⟨r, hr, hc⟩ | ⟨h1, h2, h3, h4⟩
    · exact ⟨"invalid nameRegex", by simp [validateConfig, hr, hc]⟩
    · cases hreg : config.spec.namespaceSelector.nameRegex with
      | none =>
        exact ⟨"at least one RBAC template must be specified",
          by simp [validateConfig, hreg, validateTemplatesNonEmpty, h1, h2, h3, h4]⟩
      | some r =>
        by_cases hc : compileOk r
        · exact ⟨"at least one RBAC template must be specified",
            by simp [validateConfig, hreg, hc, validateTemplatesNonEmpty, h1, h2, h3, h4]⟩
        · exact ⟨"invalid nameRegex", by simp [validateConfig, hreg, hc]⟩
  have hmsg' : validateConfig compileOk { config with status := { config.status with
      conditions := setCondition config.status.conditions
        ⟨ConditionTypeProgressing, ConditionStatus.ctrue, "Reconciling",
          "Reconciling NamespaceRBACConfig"⟩ } } = some msg := hmsg
  have hpd : ConditionTypeProgressing ≠ ConditionTypeDegraded := by decide
  have hrd : ConditionTypeReady ≠ ConditionTypeDegraded := by decide
  have hpr : ConditionTypeProgressing ≠ ConditionTypeReady := by decide
  simp only [reconcileMain, hmsg']
  refine ⟨⟨msg, ?_⟩, ?_, ?_, trivial⟩
  · rw [getCondition_setCondition_ne _ _ _ hpd, getCondition_setCondition_ne _ _ _ hrd]
    exact getCondition_setCondition_self _ _
  · rw [getCondition_setCondition_ne _ _ _ hpr]
    exact getCondition_setCondition_self _ _
  · exact getCondition_setCondition_self _ _

/-- C7 witness: a declaration with no templates at all fails validation and
ends Degraded with only the status persisted. -/
theorem C7_validation_failure_witness :
    (∃ msg, getCondition (reconcileMain (fun _ => true) (fun _ _ => (true, none)) none []
        (fun _ => none)
        ⟨"c7", 0, ⟨⟨none, none, none, [], []⟩, ⟨[], [], [], []⟩, none⟩,
          ⟨[], [], 0⟩⟩).1.status.conditions ConditionTypeDegraded =
      some ⟨ConditionTypeDegraded, ConditionStatus.ctrue, ReasonValidationError, msg⟩) ∧
    getCondition (reconcileMain (fun _ => true) (fun _ _ => (true, none)) none []
        (fun _ => none)
        ⟨"c7", 0, ⟨⟨none, none, none, [], []⟩, ⟨[], [], [], []⟩, none⟩,
          ⟨[], [], 0⟩⟩).1.status.conditions ConditionTypeReady =
      some ⟨ConditionTypeReady, ConditionStatus.cfalse, ReasonValidationError,
        "Configuration validation failed"⟩ ∧
    getCondition (reconcileMain (fun _ => true) (fun _ _ => (true, none)) none []
        (fun _ => none)
        ⟨"c7", 0, ⟨⟨none, none, none, [], []⟩, ⟨[], [], [], []⟩, none⟩,
          ⟨[], [], 0⟩⟩).1.status.conditions ConditionTypeProgressing =
      some ⟨ConditionTypeProgressing, ConditionStatus.cfalse, ReasonValidationError,
        "Validation failed"⟩ ∧
    (reconcileMain (fun _ => true) (fun _ _ => (true, none)) none [] (fun _ => none)
      ⟨"c7", 0, ⟨⟨none, none, none, [], []⟩, ⟨[], [], [], []⟩, none⟩, ⟨[], [], 0⟩⟩).2 =
      [REffect.statusUpdate] :=
  C7_validation_failure (fun _ => true) (fun _ _ => (true, none)) none [] (fun _ => none)
    ⟨"c7", 0, ⟨⟨none, none, none, [], []⟩, ⟨[], [], [], []⟩, none⟩, ⟨[], [], 0⟩⟩
    (Or.inr ⟨rfl, rfl, rfl, rfl⟩)

/-! ## Claim C10 -/

theorem handleLoop_length (rmatch : String → String → Bool × Option String)
    (ns : NamespaceObj) (applyErr cleanupErr : NamespaceRBACConfig → Option String) :
    ∀ configs : List NamespaceRBACConfig,
    (handleLoop rmatch ns applyErr cleanupErr configs).length = configs.length := by
  intro configs
  induction configs with
  | nil => rfl
  | cons c rest ih => simp [handleLoop, ih]

/-- C10: the namespace create-or-update handler returns success (no requeue,
nil error) for every possible combination of per-declaration apply and
cleanup failures: each per-config error leaves the loop running (one trace
entry per config), and a reconcile is recorded to the health checker, so
such failures never reach the dispatcher's error backoff. -/
theorem C10_namespace_reconcile_success (rmatch : String → String → Bool × Option String)
    (ns : NamespaceObj) (configs : List NamespaceRBACConfig)
    (applyErr cleanupErr : NamespaceRBACConfig → Option String) :
    (handleNamespaceCreateOrUpdate rmatch ns configs applyErr cleanupErr).1 =
      (false, none) ∧
    NEffect.recordReconcile ∈
      (handleNamespaceCreateOrUpdate rmatch ns configs applyErr cleanupErr).2 ∧
    (handleNamespaceCreateOrUpdate rmatch ns configs applyErr cleanupErr).2.length =
      configs.length + 1 := by
  refine ⟨rfl, ?_, ?_⟩
  · simp [handleNamespaceCreateOrUpdate]
  · simp [handleNamespaceCreateOrUpdate, handleLoop_length]

end KAclOp
